import Mathlib

/-!
Verification development for the private-DNS resolution core of the
Android DnsResolver module (package android_packages_modules_DnsResolver).

Shallow embedding: the data structures and member functions of
src/PrivateDnsConfiguration.h are translated into Lean definitions;
behaviour whose implementation lives outside the provided sources
(query dispatcher, response cache, Do53 truncation handling, NAT64
state, search-domain normalization) is modelled from the specification
text, with each such definition marked "Modelled from the spec".
-/

namespace DnsResolver

/-- Validation status of a private-DNS server (enum Validation from
DnsTlsServer.h, as used by PrivateDnsConfiguration.h). -/
inductive Validation where
  | in_process
  | success
  | fail
  | unknown_server
  deriving DecidableEq, Repr

/-- netdutils::IPSockAddr: a socket address. The IP address is abstracted
to a numeric code preserving the total order used by the comparator. -/
structure IPSockAddr where
  ip : Nat
  port : Nat
  deriving DecidableEq, Repr

/-- DnsTlsServer (from DnsTlsServer.h): a DoT server, identified for the
status map by its socket address; the provider is the private-DNS
hostname (empty for opportunistic servers). -/
structure DnsTlsServer where
  addr : IPSockAddr
  provider : String
  deriving DecidableEq, Repr

/-- AddressComparator (DnsTlsServer.h): strict weak order on DnsTlsServer
comparing the socket address only (ip, then port), as used as the key
order of PrivateDnsStatus::dotServersMap. -/
def addressLt (a b : DnsTlsServer) : Bool :=
  (a.addr.ip < b.addr.ip) || (a.addr.ip = b.addr.ip && a.addr.port < b.addr.port)

/-- PrivateDnsMode (OFF / OPPORTUNISTIC / STRICT). -/
inductive PrivateDnsMode where
  | off
  | opportunistic
  | strict
  deriving DecidableEq, Repr

/-- DohServerInfo from PrivateDnsConfiguration.h. -/
structure DohServerInfo where
  httpsTemplate : String
  status : Validation
  deriving DecidableEq, Repr

/-- PrivateDnsStatus from PrivateDnsConfiguration.h. dotServersMap is a
std::map keyed by DnsTlsServer under AddressComparator; it is embedded
as the association list enumerating the map in its iteration order
(ascending key order). -/
structure PrivateDnsStatus where
  mode : PrivateDnsMode
  dotServersMap : List (DnsTlsServer × Validation)
  dohServersMap : List (IPSockAddr × DohServerInfo)
  deriving DecidableEq, Repr

/-- PrivateDnsStatus::validatedServers(): iterates dotServersMap and
collects the servers whose status is Validation::success, in map
iteration order. -/
def PrivateDnsStatus.validatedServers (st : PrivateDnsStatus) : List DnsTlsServer :=
  (st.dotServersMap.filter (fun pair => pair.2 = Validation.success)).map Prod.fst

/-- PrivateDnsStatus::hasValidatedDohServers(). -/
def PrivateDnsStatus.hasValidatedDohServers (st : PrivateDnsStatus) : Bool :=
  st.dohServersMap.any (fun pair => pair.2.status = Validation.success)

/-- DohIdentity from PrivateDnsConfiguration.h. -/
structure DohIdentity where
  httpsTemplate : String
  ipAddr : String
  host : String
  status : Validation
  deriving DecidableEq, Repr

/-- DohProviderEntry from PrivateDnsConfiguration.h. -/
structure DohProviderEntry where
  provider : String
  ips : List String
  host : String
  httpsTemplate : String
  requireRootPermission : Bool
  deriving DecidableEq, Repr

/-- The for-loop at the end of DohProviderEntry::getDohIdentity: scan
sortedValidIps for the first IP contained in the provider ip set;
return an identity with status in_process, or the error
"server not matched" when the scan is exhausted. -/
def DohProviderEntry.scanIps (e : DohProviderEntry) (host : String) :
    List String → Except String DohIdentity
  | [] => Except.error "server not matched"
  | ip :: rest =>
      if e.ips.contains ip then
        Except.ok ⟨e.httpsTemplate, ip, host, Validation.in_process⟩
      else
        e.scanIps host rest

/-- DohProviderEntry::getDohIdentity(sortedValidIps, host): when host is
non-empty it must equal the entry host, and a non-empty ip list yields
an identity from its first element without consulting the ip set;
otherwise (host empty, or host matched but ip list empty) control falls
through to the scan loop. -/
def DohProviderEntry.getDohIdentity (e : DohProviderEntry)
    (sortedValidIps : List String) (host : String) : Except String DohIdentity :=
  if host ≠ "" then
    if e.host ≠ host then Except.error ("host " ++ host ++ " not matched")
    else
      match sortedValidIps with
      | ip :: _ => Except.ok ⟨e.httpsTemplate, ip, host, Validation.in_process⟩
      | [] => e.scanIps host sortedValidIps
  else e.scanIps host sortedValidIps

/-- Configuration of netdutils::BackoffSequence<>::Builder as set up by
PrivateDnsConfiguration::mBackoffBuilder: the initial and maximum
retransmission times, in seconds. -/
structure BackoffBuilder where
  initialRetransmissionTime : Nat
  maximumRetransmissionTime : Nat
  deriving DecidableEq, Repr

/-- mBackoffBuilder from PrivateDnsConfiguration.h:
withInitialRetransmissionTime(60 s), withMaximumRetransmissionTime(3600 s). -/
def mBackoffBuilder : BackoffBuilder :=
  ⟨60, 3600⟩

/-- Modelled from the spec (section 4.7, "Backoff: initial 60 s, doubling
per failure, capped at 3600 s"); the netdutils::BackoffSequence
implementation itself is outside the provided sources. The n-th delay of
the sequence built from builder b: the first delay is the initial time,
and each later delay is the double of the previous one clamped at the
maximum. -/
def backoffDelay (b : BackoffBuilder) : Nat → Nat
  | 0 => b.initialRetransmissionTime
  | n + 1 => min (backoffDelay b n * 2) b.maximumRetransmissionTime

example : backoffDelay mBackoffBuilder 0 = 60 := by decide
example : backoffDelay mBackoffBuilder 5 = 1920 := by decide
example : backoffDelay mBackoffBuilder 6 = 3600 := by decide
example : backoffDelay mBackoffBuilder 7 = 3600 := by decide

/-! ## Query dispatcher transport selection (modelled from the spec)

The dispatcher implementation (res_send and DnsProxyListener) is not
among the provided sources; only its integration tests are. The
definitions below are modelled from spec section 4.8 step 2 and
section 7. -/

/-- A DNS answer: abstract wire bytes. -/
structure Answer where
  bytes : List Nat
  deriving DecidableEq, Repr

/-- Query-level errors of the dispatcher (spec section 6 and 7). -/
inductive QueryError where
  | timeout
  | network_unreachable
  | refused
  | private_dns_validation_failed
  deriving DecidableEq, Repr

/-- Modelled from the spec: the per-network inputs of transport selection
(section 4.8 step 2): the privacy mode, the validated DoT server view,
whether a DoH server is validated, and the Do53 server list. -/
structure DispatchEnv where
  mode : PrivateDnsMode
  validatedDot : List DnsTlsServer
  hasValidatedDoh : Bool
  do53Servers : List IPSockAddr
  deriving Repr

/-- First successful exchange over the validated DoT servers, in order. -/
def tryDotServers (exchangeDot : DnsTlsServer → Option Answer) :
    List DnsTlsServer → Option Answer
  | [] => none
  | s :: rest =>
      match exchangeDot s with
      | some a => some a
      | none => tryDotServers exchangeDot rest

/-- Do53 loop: exchange with each cleartext server in order, counting the
number of Do53 queries emitted. -/
def tryDo53Servers (exchange53 : IPSockAddr → Option Answer) :
    List IPSockAddr → Option Answer × Nat
  | [] => (none, 0)
  | s :: rest =>
      match exchange53 s with
      | some a => (some a, 1)
      | none =>
          let r := tryDo53Servers exchange53 rest
          (r.1, r.2 + 1)

/-- Modelled from the spec: query dispatch per mode (section 4.8 step 2):
OFF uses Do53 only; OPPORTUNISTIC tries validated encrypted transports
and falls back to Do53; STRICT uses DoT/DoH only and fails hard, with no
Do53 fallback, when no encrypted server is validated (section 7).
Returns the query result together with the number of Do53 queries
emitted. -/
def dispatchQuery (env : DispatchEnv) (exchangeDoh : Option Answer)
    (exchangeDot : DnsTlsServer → Option Answer)
    (exchange53 : IPSockAddr → Option Answer) : Except QueryError Answer × Nat :=
  match env.mode with
  | PrivateDnsMode.off =>
      match tryDo53Servers exchange53 env.do53Servers with
      | (some a, n) => (Except.ok a, n)
      | (none, n) => (Except.error QueryError.timeout, n)
  | PrivateDnsMode.opportunistic =>
      match (if env.hasValidatedDoh then exchangeDoh else none) with
      | some a => (Except.ok a, 0)
      | none =>
          match tryDotServers exchangeDot env.validatedDot with
          | some a => (Except.ok a, 0)
          | none =>
              match tryDo53Servers exchange53 env.do53Servers with
              | (some a, n) => (Except.ok a, n)
              | (none, n) => (Except.error QueryError.timeout, n)
  | PrivateDnsMode.strict =>
      if env.validatedDot.isEmpty && !env.hasValidatedDoh then
        (Except.error QueryError.private_dns_validation_failed, 0)
      else
        match (if env.hasValidatedDoh then exchangeDoh else none) with
        | some a => (Except.ok a, 0)
        | none =>
            match tryDotServers exchangeDot env.validatedDot with
            | some a => (Except.ok a, 0)
            | none => (Except.error QueryError.timeout, 0)

/-! ## Response cache and bypass flags (modelled from the spec)

The response cache implementation (res_cache) is not among the provided
sources. Modelled from spec sections 4.2 and 4.8. -/

/-- Cache key: (name-lowercased, type, class), abstracted to a code. -/
structure QueryKey where
  code : Nat
  deriving DecidableEq, Repr

/-- A cached answer with its absolute expiry instant. -/
structure CacheEntry where
  answer : Answer
  expiry : Nat
  deriving DecidableEq, Repr

/-- Per-network cache contents: association list from key to entry. -/
abbrev Cache := List (QueryKey × CacheEntry)

/-- Query flags relevant to the cache (spec section 4.8). -/
structure QueryFlags where
  noCacheLookup : Bool
  noCacheStore : Bool
  deriving DecidableEq, Repr

/-- Fresh lookup: a hit only when the entry for the key exists and has
not expired; a stale entry stays in place but does not hit. -/
def cacheLookup (c : Cache) (k : QueryKey) (now : Nat) : Option Answer :=
  match c.find? (fun p => p.1 = k) with
  | some (_, e) => if now < e.expiry then some e.answer else none
  | none => none

/-- Insert or replace the entry for a key. -/
def cacheInsert (c : Cache) (k : QueryKey) (e : CacheEntry) : Cache :=
  (k, e) :: c.filter (fun p => p.1 ≠ k)

/-- Modelled from the spec (sections 4.2 and 4.8): one cached query.
NO_CACHE_STORE implies NO_CACHE_LOOKUP, so either flag skips the lookup
stage; on upstream resolution the answer is inserted unless
NO_CACHE_STORE is set. Returns (answer, cache afterwards, whether an
upstream request was issued). -/
def resolveWithCache (c : Cache) (k : QueryKey) (now : Nat) (flags : QueryFlags)
    (upstream : Answer) (ttl : Nat) : Answer × Cache × Bool :=
  let skipLookup := flags.noCacheLookup || flags.noCacheStore
  match (if skipLookup then none else cacheLookup c k now) with
  | some a => (a, c, false)
  | none =>
      let c2 := if flags.noCacheStore then c else cacheInsert c k ⟨upstream, now + ttl⟩
      (upstream, c2, true)

/-! ## Do53 truncation handling (modelled from the spec)

The Do53 transport (res_send) is not among the provided sources.
Modelled from spec section 4.3: on a UDP response with the TC bit set
the same query is retried over TCP to the same server; in default
tie-mode the remaining servers are tried over TCP only, while in
udp_then_tcp mode the next server is tried over UDP again. -/

/-- Truncation tie-mode (ResolverOptionsParcel tcMode). -/
inductive TcMode where
  | tcDefault
  | tcUdpTcp
  deriving DecidableEq, Repr

/-- Transport protocol of one Do53 attempt. -/
inductive Proto where
  | udp
  | tcp
  deriving DecidableEq, Repr

/-- Outcome of a UDP exchange with one server. -/
inductive UdpResult where
  | answered (a : Answer)
  | truncated
  | noAnswer
  deriving DecidableEq, Repr

/-- Behaviour of one Do53 server in a scenario: its UDP outcome and its
TCP outcome (none when the server does not answer TCP). -/
structure ServerBehavior where
  udpResp : UdpResult
  tcpResp : Option Answer
  deriving DecidableEq, Repr

/-- Modelled from the spec (section 4.3): the Do53 attempt loop over the
indexed server list. useTcp records that a previous truncation switched
the loop to TCP (the v_circuit of the resolver); in default tie-mode it
stays set for the remaining servers, in udp_then_tcp mode the loop
falls back to UDP on the next server. Emits the transcript of
(server index, protocol) attempts together with the result. -/
def do53Loop (mode : TcMode) (useTcp : Bool) :
    List (Nat × ServerBehavior) → Option Answer × List (Nat × Proto)
  | [] => (none, [])
  | (i, s) :: rest =>
      if useTcp then
        match s.tcpResp with
        | some a => (some a, [(i, Proto.tcp)])
        | none =>
            let r := do53Loop mode (mode = TcMode.tcDefault) rest
            (r.1, (i, Proto.tcp) :: r.2)
      else
        match s.udpResp with
        | UdpResult.answered a => (some a, [(i, Proto.udp)])
        | UdpResult.truncated =>
            match s.tcpResp with
            | some a => (some a, [(i, Proto.udp), (i, Proto.tcp)])
            | none =>
                let r := do53Loop mode (mode = TcMode.tcDefault) rest
                (r.1, (i, Proto.udp) :: (i, Proto.tcp) :: r.2)
        | UdpResult.noAnswer =>
            let r := do53Loop mode useTcp rest
            (r.1, (i, Proto.udp) :: r.2)

/-- One Do53 dispatch across a server list, starting over UDP. -/
def do53Dispatch (mode : TcMode) (servers : List ServerBehavior) :
    Option Answer × List (Nat × Proto) :=
  do53Loop mode false (servers.enum)

/-! ## NAT64 prefix state (modelled from the spec)

The DnsResolverService setPrefix64 / Dns64Configuration implementation
is not among the provided sources. Modelled from spec section 4.9. -/

/-- A /96 NAT64 prefix, abstracted to its 96-bit value. -/
structure Prefix96 where
  bits : Nat
  deriving DecidableEq, Repr

/-- Errors of setPrefix64 (spec sections 4.9 and 7). -/
inductive Nat64Error where
  | AlreadyExists
  | NotFound
  deriving DecidableEq, Repr

/-- Modelled from the spec: per-network NAT64 state. The explicitly set
and the discovered prefixes are tracked separately; discoveryRunning is
true between startPrefix64Discovery and stopPrefix64Discovery. -/
structure Nat64State where
  discoveryRunning : Bool
  discoveredPfx : Option Prefix96
  explicitPfx : Option Prefix96
  deriving DecidableEq, Repr

/-- The prefix effective for synthesis: the explicitly set one when
present, else the discovered one. -/
def Nat64State.effectivePfx (s : Nat64State) : Option Prefix96 :=
  match s.explicitPfx with
  | some p => some p
  | none => s.discoveredPfx

/-- Modelled from the spec (section 4.9): setPrefix64. A non-empty valid
/96 argument is rejected with AlreadyExists while discovery is running
(whether or not a prefix has been discovered); the empty argument
clears the explicitly set prefix and is rejected with NotFound when
none is set. On error the state is unchanged. -/
def setPrefix64 (s : Nat64State) (arg : Option Prefix96) :
    Except Nat64Error Unit × Nat64State :=
  match arg with
  | some p =>
      if s.discoveryRunning then (Except.error Nat64Error.AlreadyExists, s)
      else (Except.ok (), { s with explicitPfx := some p })
  | none =>
      match s.explicitPfx with
      | none => (Except.error Nat64Error.NotFound, s)
      | some _ => (Except.ok (), { s with explicitPfx := none })

/-! ## NAT64 synthesis and special-use IPv4 ranges (modelled from the spec)

Modelled from spec section 4.8 step 6: AAAA synthesis from A answers,
excluded for special-use IPv4 ranges. -/

/-- An IPv4 address as its 32-bit value. -/
abbrev IPv4 := Nat

/-- Modelled from the spec: the special-use IPv4 ranges excluded from
synthesis: 0.0.0.0/8, 127.0.0.0/8, 169.254.0.0/16, 224.0.0.0/4 and
255.255.255.255. -/
def isSpecialUseIPv4 (a : Nat) : Bool :=
  (a / 2 ^ 24 = 0) || (a / 2 ^ 24 = 127) || (a / 2 ^ 16 = 169 * 256 + 254) ||
    (a / 2 ^ 28 = 14) || (a = 2 ^ 32 - 1)

/-- Modelled from the spec: synthesize one AAAA address by prefixing the
A address with the /96, unless the address is special-use. -/
def synthesizeAAAA (p : Prefix96) (a : IPv4) : Option Nat :=
  if isSpecialUseIPv4 a then none else some (p.bits * 2 ^ 32 + a)

/-- Modelled from the spec: the answer of an AF_INET6 (AAAA) resolution:
real AAAA records when present; otherwise, when a prefix is effective,
the synthesizable subset of the A records; otherwise nothing. -/
def dns64QueryAAAA (pfx : Option Prefix96) (aRecords : List IPv4)
    (aaaaRecords : List Nat) : List Nat :=
  match aaaaRecords with
  | _ :: _ => aaaaRecords
  | [] =>
      match pfx with
      | none => []
      | some p => aRecords.filterMap (synthesizeAAAA p)

/-- Modelled from the spec: the answer of an AF_UNSPEC resolution:
the AAAA-side result (real or synthesized) together with the
untouched A records. -/
def dns64QueryUnspec (pfx : Option Prefix96) (aRecords : List IPv4)
    (aaaaRecords : List Nat) : List Nat × List IPv4 :=
  (dns64QueryAAAA pfx aRecords aaaaRecords, aRecords)

/-! ## Search-domain normalization (modelled from the spec)

The resolv_cache normalization of the search path is not among the
provided sources. Modelled from spec section 3 (NetworkState: "list of
search domains (deduplicated, at most 6, each at most 255 bytes)") and
section 8: overlong domains are dropped, duplicates are removed keeping
the first occurrence, and the list is capped at 6 entries. -/

/-- MAXDNSRCH: maximum number of search domains. -/
def maxDnsrch : Nat := 6

/-- Maximum byte length of one search domain. -/
def maxDomainLen : Nat := 255

/-- Modelled from the spec: the single filtering pass of configuration:
walk the input keeping a set of domains already seen; skip an entry
that is overlong or already seen, keep the rest in order. -/
def filterDomainsGo (seen : List String) : List String → List String
  | [] => []
  | d :: rest =>
      if d.length > maxDomainLen || seen.contains d then filterDomainsGo seen rest
      else d :: filterDomainsGo (d :: seen) rest

/-- Modelled from the spec: search-domain normalization at configuration
time: the filtering pass followed by the 6-entry cap. -/
def setSearchDomains (domains : List String) : List String :=
  (filterDomainsGo [] domains).take maxDnsrch

/-- Deduplication keeping the first occurrence of each element. -/
def dedupKeepFirst : List String → List String
  | [] => []
  | d :: rest => d :: dedupKeepFirst (rest.filter (fun x => x ≠ d))
termination_by l => l.length
decreasing_by
  simp only [List.length_cons]
  exact Nat.lt_succ_of_le (List.length_filter_le _ _)

/-! ## Cache pending markers and flush (modelled from the spec)

Modelled from spec section 4.2: concurrent de-duplication with Pending
markers, and the flush-unblocks-pending rule. -/

/-- A cache slot: a stored answer, or a Pending marker with the number
of attached waiters. -/
inductive CacheSlot where
  | answered (e : CacheEntry)
  | pending (waiters : Nat)
  deriving DecidableEq, Repr

/-- Cache with pending markers: association list from key to slot. -/
abbrev PCache := List (QueryKey × CacheSlot)

/-- Outcome of the cache stage of one lookup. -/
inductive LookupOutcome where
  | hit (a : Answer)
  | waitPending
  | missIssueUpstream
  deriving DecidableEq, Repr

/-- Modelled from the spec (section 4.2): the cache stage of one query.
A fresh entry hits; an in-flight key attaches the caller as one more
waiter on the Pending marker; a miss installs a Pending marker and the
caller issues the single upstream request. -/
def startLookup (c : PCache) (k : QueryKey) (now : Nat) : LookupOutcome × PCache :=
  match c.find? (fun p => p.1 = k) with
  | some (_, CacheSlot.answered e) =>
      if now < e.expiry then (LookupOutcome.hit e.answer, c)
      else (LookupOutcome.missIssueUpstream,
            (k, CacheSlot.pending 0) :: c.filter (fun p => p.1 ≠ k))
  | some (_, CacheSlot.pending w) =>
      (LookupOutcome.waitPending,
       (k, CacheSlot.pending (w + 1)) :: c.filter (fun p => p.1 ≠ k))
  | none =>
      (LookupOutcome.missIssueUpstream,
       (k, CacheSlot.pending 0) :: c.filter (fun p => p.1 ≠ k))

/-- Modelled from the spec (section 4.2): flush(network) drops all
entries and wakes all pending waiters so they restart their lookup.
Returns the emptied cache together with the list of
(key, waiter count) pairs whose waiters were woken. -/
def flushCache (c : PCache) : PCache × List (QueryKey × Nat) :=
  ([], c.filterMap (fun p =>
    match p.2 with
    | CacheSlot.pending w => some (p.1, w)
    | CacheSlot.answered _ => none))

/-! ## Claim-side ordering of the validated-server view

The claim about getStatus orders validatedServers by the
health-selection policy of spec section 4.1 (lowest RTT EWMA first).
The following definitions follow the words of that claim, to be
compared with PrivateDnsStatus.validatedServers as embedded from the
source. -/

/-- Insertion step of the RTT sort. -/
def insertByRtt (rtt : DnsTlsServer → Nat) (s : DnsTlsServer) :
    List DnsTlsServer → List DnsTlsServer
  | [] => [s]
  | t :: rest =>
      if rtt s ≤ rtt t then s :: t :: rest else t :: insertByRtt rtt s rest

/-- Stable insertion sort by ascending RTT EWMA. -/
def sortByRtt (rtt : DnsTlsServer → Nat) (l : List DnsTlsServer) :
    List DnsTlsServer :=
  l.foldr (insertByRtt rtt) []

/-- Definition following the claim words (health-selection policy of spec
section 4.1): the success-status servers of the status map, ordered by
lowest RTT EWMA first. -/
def healthOrderedValidatedServers (st : PrivateDnsStatus)
    (rtt : DnsTlsServer → Nat) : List DnsTlsServer :=
  sortByRtt rtt ((st.dotServersMap.filter
    (fun pair => pair.2 = Validation.success)).map Prod.fst)

/-- Concrete fixture for the validated-server ordering: two DoT servers,
both validated, where the one with the smaller address has the larger
RTT EWMA. -/
def cexServer1 : DnsTlsServer := ⟨⟨1, 853⟩, ""⟩

/-- Second fixture server: larger address, smaller RTT EWMA. -/
def cexServer2 : DnsTlsServer := ⟨⟨2, 853⟩, ""⟩

/-- Fixture status: both servers validated, in map (address) order. -/
def cexStatus : PrivateDnsStatus :=
  ⟨PrivateDnsMode.opportunistic,
   [(cexServer1, Validation.success), (cexServer2, Validation.success)],
   []⟩

/-- Fixture RTT EWMA: the smaller-address server is the slower one. -/
def cexRtt : DnsTlsServer → Nat :=
  fun s => if s.addr.ip = 1 then 100 else 10

/-- The Google entry of mAvailableDoHProviders in
PrivateDnsConfiguration.h, used as a concrete DoH provider fixture. -/
def googleDohEntry : DohProviderEntry :=
  ⟨"Google",
   ["2001:4860:4860::8888", "2001:4860:4860::8844", "8.8.8.8", "8.8.4.4"],
   "dns.google",
   "https://dns.google/dns-query",
   false⟩

/-- Modelled from the spec: the per-network configuration record as far
as the search-domain claim needs it. -/
structure ResolverConfig where
  searchDomains : List String
  deriving DecidableEq, Repr

/-- Modelled from the spec: installing the search domains stores the
normalized list. -/
def setConfigDomains (ds : List String) : ResolverConfig :=
  ⟨setSearchDomains ds⟩

/-- Reading the configured search domains returns the stored list. -/
def getConfigDomains (cfg : ResolverConfig) : List String :=
  cfg.searchDomains

/-! # Theorems -/

/-- dedupKeepFirst on the empty list. -/
theorem dedupKeepFirst_nil : dedupKeepFirst [] = [] := by
  simp [dedupKeepFirst]

/-- Unfolding lemma for dedupKeepFirst on a cons cell. -/
theorem dedupKeepFirst_cons (d : String) (l : List String) :
    dedupKeepFirst (d :: l) = d :: dedupKeepFirst (l.filter (fun x => x ≠ d)) := by
  rw [dedupKeepFirst.eq_def]

/-- The one-pass filtering loop equals length-filtering followed by
first-occurrence deduplication, relative to an initial seen set. -/
theorem filterDomainsGo_eq (ds : List String) : ∀ seen : List String,
    filterDomainsGo seen ds =
      dedupKeepFirst ((ds.filter (fun d => d.length ≤ maxDomainLen)).filter
        (fun d => !seen.contains d)) := by
  induction ds with
  | nil => intro seen; simp [filterDomainsGo, dedupKeepFirst_nil]
  | cons d rest ih =>
      intro seen
      by_cases hlen : d.length ≤ maxDomainLen
      · by_cases hseen : d ∈ seen
        · have hcond : (decide (d.length > maxDomainLen) || seen.contains d) = true := by
            simp [hseen]
          simp only [filterDomainsGo, hcond, if_true]
          rw [List.filter_cons, if_pos (by simpa using hlen)]
          rw [List.filter_cons, if_neg (by simp [hseen])]
          exact ih seen
        · have hcond : (decide (d.length > maxDomainLen) || seen.contains d) = false := by
            simp [hseen]
            omega
          simp only [filterDomainsGo, hcond, Bool.false_eq_true, if_false]
          rw [List.filter_cons, if_pos (by simpa using hlen)]
          rw [List.filter_cons, if_pos (by simp [hseen])]
          rw [dedupKeepFirst_cons]
          congr 1
          rw [ih (d :: seen), List.filter_filter, List.filter_filter, List.filter_filter]
          congr 1
          apply List.filter_congr
          intro x _
          simp only [List.contains_cons, Bool.not_or, Bool.and_assoc]
          cases hx : (x == d)
          · have hne : x ≠ d := by
              intro he
              subst he
              simp at hx
            simp [hx, hne]
          · have heq : x = d := by
              have := hx
              simpa using this
            simp [hx, heq]
      · have hcond : (decide (d.length > maxDomainLen) || seen.contains d) = true := by
          simp
          omega
        simp only [filterDomainsGo, hcond, if_true]
        rw [List.filter_cons, if_neg (by simp; omega)]
        exact ih seen

/-- C7: search-domain normalization at configuration time equals the
staged pipeline: drop every domain longer than 255 bytes, then
deduplicate keeping the first occurrence in input order, then cap at 6
entries; a read of the configuration after installing returns exactly
that list. -/
theorem searchDomains_normalization (domains : List String) :
    getConfigDomains (setConfigDomains domains) =
      (dedupKeepFirst (domains.filter (fun d => d.length ≤ maxDomainLen))).take
        maxDnsrch := by
  show (filterDomainsGo [] domains).take maxDnsrch = _
  rw [filterDomainsGo_eq domains []]
  congr 2
  simp

/-- Every identity produced by the scan loop has status in_process. -/
theorem scanIps_status (e : DohProviderEntry) (host : String) :
    ∀ (l : List String) (r : DohIdentity),
      e.scanIps host l = Except.ok r → r.status = Validation.in_process := by
  intro l
  induction l with
  | nil => intro r h; exact absurd h (by simp [DohProviderEntry.scanIps])
  | cons ip rest ih =>
      intro r h
      by_cases hc : ip ∈ e.ips
      · simp [DohProviderEntry.scanIps, hc] at h
        rw [← h]
      · simp [DohProviderEntry.scanIps, hc] at h
        exact ih r h

/-- The scan loop returns the identity of the first listed IP contained
in the provider set. -/
theorem scanIps_first (e : DohProviderEntry) (host : String) :
    ∀ (pre : List String) (ip : String) (post : List String),
      (∀ p ∈ pre, p ∉ e.ips) → ip ∈ e.ips →
      e.scanIps host (pre ++ ip :: post) =
        Except.ok ⟨e.httpsTemplate, ip, host, Validation.in_process⟩ := by
  intro pre
  induction pre with
  | nil =>
      intro ip post _ hip
      simp [DohProviderEntry.scanIps, hip]
  | cons p rest ih =>
      intro ip post hpre hip
      have hp : p ∉ e.ips := hpre p (List.mem_cons_self p rest)
      simp only [List.cons_append, DohProviderEntry.scanIps]
      rw [if_neg (by simpa using hp)]
      exact ih ip post (fun q hq => hpre q (List.mem_cons_of_mem p hq)) hip

/-- The scan loop fails when no listed IP is in the provider set. -/
theorem scanIps_none (e : DohProviderEntry) (host : String) :
    ∀ (l : List String), (∀ ip ∈ l, ip ∉ e.ips) →
      e.scanIps host l = Except.error "server not matched" := by
  intro l
  induction l with
  | nil => intro _; rfl
  | cons ip rest ih =>
      intro hall
      have hip : ip ∉ e.ips := hall ip (List.mem_cons_self ip rest)
      simp only [DohProviderEntry.scanIps]
      rw [if_neg (by simpa using hip)]
      exact ih (fun q hq => hall q (List.mem_cons_of_mem ip hq))

/-- C10: DohProviderEntry::getDohIdentity succeeds for a non-empty host
only when the host matches the entry, in which case the identity is
built from the first valid IP with no membership check in the provider
IP set; it fails whenever the valid-IP list is empty; for an empty host
it returns the identity of the first valid IP contained in the provider
IP set and fails when there is none; every returned identity has
validation status in_process. -/
theorem getDohIdentity_spec (e : DohProviderEntry) (ips : List String) (host : String) :
    (host ≠ "" → ∀ r, e.getDohIdentity ips host = Except.ok r → e.host = host) ∧
    (host ≠ "" → e.host = host → ∀ ip rest, ips = ip :: rest →
      e.getDohIdentity ips host =
        Except.ok ⟨e.httpsTemplate, ip, host, Validation.in_process⟩) ∧
    (ips = [] → ∃ msg, e.getDohIdentity ips host = Except.error msg) ∧
    (host = "" → ∀ pre ip post, ips = pre ++ ip :: post →
      (∀ p ∈ pre, p ∉ e.ips) → ip ∈ e.ips →
      e.getDohIdentity ips host =
        Except.ok ⟨e.httpsTemplate, ip, host, Validation.in_process⟩) ∧
    (host = "" → (∀ ip ∈ ips, ip ∉ e.ips) →
      ∃ msg, e.getDohIdentity ips host = Except.error msg) ∧
    (∀ r, e.getDohIdentity ips host = Except.ok r →
      r.status = Validation.in_process) := by
  refine ⟨?_, ?_, ?_, ?_, ?_, ?_⟩
  · intro hne r hok
    by_cases hh : e.host = host
    · exact hh
    · simp [DohProviderEntry.getDohIdentity, hne, hh] at hok
  · intro hne hh ip rest hips
    subst hips
    simp [DohProviderEntry.getDohIdentity, hne, hh]
  · intro hips
    subst hips
    by_cases hne : host = ""
    · exact ⟨"server not matched", by simp [DohProviderEntry.getDohIdentity, hne,
        DohProviderEntry.scanIps]⟩
    · by_cases hh : e.host = host
      · exact ⟨"server not matched", by simp [DohProviderEntry.getDohIdentity, hne, hh,
          DohProviderEntry.scanIps]⟩
      · exact ⟨"host " ++ host ++ " not matched",
          by simp [DohProviderEntry.getDohIdentity, hne, hh]⟩
  · intro hhost pre ip post hips hpre hip
    subst hips
    simp only [DohProviderEntry.getDohIdentity, hhost, ne_eq, not_true_eq_false, if_false]
    exact scanIps_first e "" pre ip post hpre hip
  · intro hhost hall
    subst hhost
    simp only [DohProviderEntry.getDohIdentity, ne_eq, not_true_eq_false, if_false]
    exact ⟨"server not matched", scanIps_none e "" ips hall⟩
  · intro r hok
    by_cases hne : host = ""
    · simp only [DohProviderEntry.getDohIdentity, hne, ne_eq, not_true_eq_false,
        if_false] at hok
      exact scanIps_status e "" ips r (by simpa [hne] using hok)
    · by_cases hh : e.host = host
      · cases ips with
        | nil =>
            simp only [DohProviderEntry.getDohIdentity, hne, hh] at hok
            exact scanIps_status e host [] r (by simpa using hok)
        | cons ip rest =>
            simp [DohProviderEntry.getDohIdentity, hne, hh] at hok
            rw [← hok]
      · simp [DohProviderEntry.getDohIdentity, hne, hh] at hok

/-- Witness for C10: the Google provider entry with its private-DNS
hostname and a resolved IP list returns the identity of the first IP. -/
theorem getDohIdentity_spec_witness :
    ("dns.google" : String) ≠ "" ∧
    googleDohEntry.getDohIdentity ["8.8.8.8", "8.8.4.4"] "dns.google" =
      Except.ok ⟨"https://dns.google/dns-query", "8.8.8.8", "dns.google",
        Validation.in_process⟩ :=
  ⟨by decide,
   (getDohIdentity_spec googleDohEntry ["8.8.8.8", "8.8.4.4"] "dns.google").2.1
     (by decide) (by decide) "8.8.8.8" ["8.8.4.4"] rfl⟩

/-- C8: the n-th validation retry delay of the backoff sequence built
from mBackoffBuilder (initial 60 s, doubling per failure, maximum
3600 s) equals min(60 * 2^n, 3600) seconds for every n. -/
theorem backoffDelay_closed_form (n : Nat) :
    backoffDelay mBackoffBuilder n = min (60 * 2 ^ n) 3600 := by
  induction n with
  | zero => decide
  | succ n ih =>
      have hpow : 60 * 2 ^ (n + 1) = 60 * 2 ^ n * 2 := by ring
      show min (backoffDelay mBackoffBuilder n * 2)
        mBackoffBuilder.maximumRetransmissionTime = _
      rw [ih, hpow]
      show min (min (60 * 2 ^ n) 3600 * 2) 3600 = min (60 * 2 ^ n * 2) 3600
      omega

/-- Counterexample for C2: a status with two validated servers where the
map (address) order disagrees with the RTT-based health-selection order,
so validatedServers is not the health-ordered list the claim states. -/
theorem validatedServers_not_health_ordered :
    cexStatus.validatedServers ≠ healthOrderedValidatedServers cexStatus cexRtt := by
  decide

/-- C2 (amended): validatedServers contains exactly the servers of the
status map whose validation status is success (none with another
status), and it is in the map iteration order: when the status map is
sorted by the address comparator, so is the returned list; the order is
not the RTT-based health-selection order. -/
theorem validatedServers_spec (st : PrivateDnsStatus) :
    (∀ s : DnsTlsServer,
      s ∈ st.validatedServers ↔ (s, Validation.success) ∈ st.dotServersMap) ∧
    (st.dotServersMap.Pairwise (fun a b => addressLt a.1 b.1 = true) →
      st.validatedServers.Pairwise (fun a b => addressLt a b = true)) := by
  constructor
  · intro s
    unfold PrivateDnsStatus.validatedServers
    simp only [List.mem_map, List.mem_filter, decide_eq_true_eq]
    constructor
    · rintro ⟨⟨a, b⟩, ⟨hmem, hb⟩, hfst⟩
      simp only at hfst hb
      subst hfst
      subst hb
      exact hmem
    · intro h
      exact ⟨(s, Validation.success), ⟨h, rfl⟩, rfl⟩
  · intro hp
    unfold PrivateDnsStatus.validatedServers
    rw [List.pairwise_map]
    exact List.Pairwise.sublist (List.filter_sublist _) hp

/-- Witness for C2 (amended): applying the characterization to the
fixture status, whose map is sorted by the address comparator. -/
theorem validatedServers_spec_witness :
    (cexServer1 ∈ cexStatus.validatedServers ↔
      (cexServer1, Validation.success) ∈ cexStatus.dotServersMap) ∧
    (cexStatus.dotServersMap.Pairwise (fun a b => addressLt a.1 b.1 = true) ∧
      cexStatus.validatedServers.Pairwise (fun a b => addressLt a b = true)) :=
  ⟨(validatedServers_spec cexStatus).1 cexServer1,
   by decide,
   (validatedServers_spec cexStatus).2 (by decide)⟩

/-- C1: in STRICT mode the dispatcher emits no Do53 query whatever the
server behaviours are, and when no encrypted server is validated (empty
validated DoT view and no validated DoH server) every query returns the
hard error private_dns_validation_failed. -/
theorem strictMode_no_do53 (env : DispatchEnv) (exchangeDoh : Option Answer)
    (exchangeDot : DnsTlsServer → Option Answer)
    (exchange53 : IPSockAddr → Option Answer)
    (h : env.mode = PrivateDnsMode.strict) :
    (dispatchQuery env exchangeDoh exchangeDot exchange53).2 = 0 ∧
    (env.validatedDot = [] → env.hasValidatedDoh = false →
      (dispatchQuery env exchangeDoh exchangeDot exchange53).1 =
        Except.error QueryError.private_dns_validation_failed) := by
  constructor
  · simp only [dispatchQuery, h]
    split
    · rfl
    · split
      · rfl
      · split
        · rfl
        · rfl
  · intro hdot hdoh
    simp [dispatchQuery, h, hdot, hdoh]

/-- Witness for C1: a strict-mode network with no validated encrypted
server fails hard and emits nothing to Do53. -/
theorem strictMode_no_do53_witness :
    (DispatchEnv.mk PrivateDnsMode.strict [] false [⟨9, 53⟩]).mode =
        PrivateDnsMode.strict ∧
    (dispatchQuery (DispatchEnv.mk PrivateDnsMode.strict [] false [⟨9, 53⟩])
        none (fun _ => none) (fun _ => some ⟨[1]⟩)).2 = 0 ∧
    (dispatchQuery (DispatchEnv.mk PrivateDnsMode.strict [] false [⟨9, 53⟩])
        none (fun _ => none) (fun _ => some ⟨[1]⟩)).1 =
      Except.error QueryError.private_dns_validation_failed :=
  ⟨rfl,
   (strictMode_no_do53 _ none (fun _ => none) (fun _ => some ⟨[1]⟩) rfl).1,
   (strictMode_no_do53 _ none (fun _ => none) (fun _ => some ⟨[1]⟩) rfl).2 rfl rfl⟩

/-- C3: a query with NO_CACHE_STORE leaves the cache completely
unchanged (in particular a stale entry for its key is not refreshed),
performs no cache lookup, always issues the upstream request, and
returns the upstream answer. -/
theorem noCacheStore_frame (c : Cache) (k : QueryKey) (now : Nat)
    (flags : QueryFlags) (upstream : Answer) (ttl : Nat)
    (h : flags.noCacheStore = true) :
    (resolveWithCache c k now flags upstream ttl).2.1 = c ∧
    (resolveWithCache c k now flags upstream ttl).2.2 = true ∧
    (resolveWithCache c k now flags upstream ttl).1 = upstream := by
  simp [resolveWithCache, h]

/-- Witness for C3: a NO_CACHE_STORE query over a cache holding a stale
entry for its key leaves the entry untouched and goes upstream. -/
theorem noCacheStore_frame_witness :
    (QueryFlags.mk false true).noCacheStore = true ∧
    (resolveWithCache [(⟨7⟩, ⟨⟨[3]⟩, 5⟩)] ⟨7⟩ 10 ⟨false, true⟩ ⟨[4]⟩ 30).2.1 =
      [(⟨7⟩, ⟨⟨[3]⟩, 5⟩)] ∧
    (resolveWithCache [(⟨7⟩, ⟨⟨[3]⟩, 5⟩)] ⟨7⟩ 10 ⟨false, true⟩ ⟨[4]⟩ 30).2.2 = true :=
  ⟨rfl,
   (noCacheStore_frame [(⟨7⟩, ⟨⟨[3]⟩, 5⟩)] ⟨7⟩ 10 ⟨false, true⟩ ⟨[4]⟩ 30 rfl).1,
   (noCacheStore_frame [(⟨7⟩, ⟨⟨[3]⟩, 5⟩)] ⟨7⟩ 10 ⟨false, true⟩ ⟨[4]⟩ 30 rfl).2.1⟩

/-- C5: setPrefix64 with a valid /96 is rejected with AlreadyExists
whenever discovery is running (whatever the discovered-prefix state is),
clearing is rejected with NotFound when no explicit prefix is set, and
in both failure cases the state, hence the effective prefix used for
synthesis, is unchanged. -/
theorem setPrefix64_errors (s : Nat64State) (p : Prefix96) :
    (s.discoveryRunning = true →
      (setPrefix64 s (some p)).1 = Except.error Nat64Error.AlreadyExists ∧
      (setPrefix64 s (some p)).2 = s ∧
      (setPrefix64 s (some p)).2.effectivePfx = s.effectivePfx) ∧
    (s.explicitPfx = none →
      (setPrefix64 s none).1 = Except.error Nat64Error.NotFound ∧
      (setPrefix64 s none).2 = s ∧
      (setPrefix64 s none).2.effectivePfx = s.effectivePfx) := by
  constructor
  · intro h
    simp [setPrefix64, h]
  · intro h
    simp [setPrefix64, h]

/-- Witness for C5: a network with discovery running and a discovered
prefix rejects both an explicit set and a clear, keeping the discovered
prefix effective. -/
theorem setPrefix64_errors_witness :
    (Nat64State.mk true (some ⟨100⟩) none).discoveryRunning = true ∧
    (Nat64State.mk true (some ⟨100⟩) none).explicitPfx = none ∧
    (setPrefix64 ⟨true, some ⟨100⟩, none⟩ (some ⟨200⟩)).1 =
      Except.error Nat64Error.AlreadyExists ∧
    (setPrefix64 ⟨true, some ⟨100⟩, none⟩ none).1 =
      Except.error Nat64Error.NotFound ∧
    (setPrefix64 ⟨true, some ⟨100⟩, none⟩ (some ⟨200⟩)).2.effectivePfx =
      some ⟨100⟩ :=
  ⟨rfl, rfl,
   ((setPrefix64_errors ⟨true, some ⟨100⟩, none⟩ ⟨200⟩).1 rfl).1,
   ((setPrefix64_errors ⟨true, some ⟨100⟩, none⟩ ⟨200⟩).2 rfl).1,
   by rw [((setPrefix64_errors ⟨true, some ⟨100⟩, none⟩ ⟨200⟩).1 rfl).2.2]; rfl⟩

/-- C6: for an A record in a special-use IPv4 range (0.0.0.0/8,
127.0.0.0/8, 169.254.0.0/16, 224.0.0.0/4 or 255.255.255.255) no AAAA is
synthesized even with a NAT64 /96 in effect: an AF_INET6 query returns
nothing and an AF_UNSPEC query returns only the IPv4 address. -/
theorem dns64_no_special_use_synthesis (p : Prefix96) (a : Nat)
    (h : a < 2 ^ 24 ∨ (127 * 2 ^ 24 ≤ a ∧ a < 128 * 2 ^ 24) ∨
         (43518 * 2 ^ 16 ≤ a ∧ a < 43519 * 2 ^ 16) ∨
         (14 * 2 ^ 28 ≤ a ∧ a < 15 * 2 ^ 28) ∨ a = 2 ^ 32 - 1) :
    synthesizeAAAA p a = none ∧
    dns64QueryAAAA (some p) [a] [] = [] ∧
    dns64QueryUnspec (some p) [a] [] = ([], [a]) := by
  have hs : isSpecialUseIPv4 a = true := by
    have h24 : (2 : Nat) ^ 24 = 16777216 := by norm_num
    have h16 : (2 : Nat) ^ 16 = 65536 := by norm_num
    have h28 : (2 : Nat) ^ 28 = 268435456 := by norm_num
    have h32 : (2 : Nat) ^ 32 = 4294967296 := by norm_num
    simp only [isSpecialUseIPv4, Bool.or_eq_true, decide_eq_true_eq]
    rw [h24, h16, h28, h32]
    rw [h24, h16, h28, h32] at h
    omega
  refine ⟨?_, ?_, ?_⟩
  · simp [synthesizeAAAA, hs]
  · simp [dns64QueryAAAA, synthesizeAAAA, hs]
  · simp [dns64QueryUnspec, dns64QueryAAAA, synthesizeAAAA, hs]

/-- Witness for C6: the loopback address 127.0.0.1 is never synthesized
under the well-known prefix 64:ff9b::/96. -/
theorem dns64_no_special_use_synthesis_witness :
    ((2130706433 : Nat) < 2 ^ 24 ∨
      (127 * 2 ^ 24 ≤ 2130706433 ∧ 2130706433 < 128 * 2 ^ 24) ∨
      (43518 * 2 ^ 16 ≤ 2130706433 ∧ 2130706433 < 43519 * 2 ^ 16) ∨
      (14 * 2 ^ 28 ≤ 2130706433 ∧ 2130706433 < 15 * 2 ^ 28) ∨
      (2130706433 : Nat) = 2 ^ 32 - 1) ∧
    synthesizeAAAA ⟨1⟩ 2130706433 = none ∧
    dns64QueryAAAA (some ⟨1⟩) [2130706433] [] = [] :=
  ⟨by decide,
   (dns64_no_special_use_synthesis ⟨1⟩ 2130706433 (by decide)).1,
   (dns64_no_special_use_synthesis ⟨1⟩ 2130706433 (by decide)).2.1⟩

/-- C4: in the two-server scenario of the truncation tests (the first
server truncates over UDP and does not answer TCP, the second truncates
over UDP and answers TCP), default mode retries the truncated query
exactly once over TCP on the same server with no further UDP query to
it, and continues on the next server over TCP only; udp_then_tcp mode
falls back to UDP on the next server, observable as exactly one
additional UDP query to the second server before its TCP retry. -/
theorem truncatedRspMode_transcripts (b : Answer) :
    do53Dispatch TcMode.tcDefault
        [⟨UdpResult.truncated, none⟩, ⟨UdpResult.truncated, some b⟩] =
      (some b, [(0, Proto.udp), (0, Proto.tcp), (1, Proto.tcp)]) ∧
    do53Dispatch TcMode.tcUdpTcp
        [⟨UdpResult.truncated, none⟩, ⟨UdpResult.truncated, some b⟩] =
      (some b, [(0, Proto.udp), (0, Proto.tcp), (1, Proto.udp), (1, Proto.tcp)]) := by
  constructor
  · rfl
  · rfl

/-- With pairwise-distinct keys, find? on the cache returns the stored
pair of the searched key. -/
theorem pcache_find_eq (c : PCache) (k : QueryKey) (slot : CacheSlot)
    (hmem : (k, slot) ∈ c) (hnd : c.Pairwise (fun a b => a.1 ≠ b.1)) :
    c.find? (fun p => p.1 = k) = some (k, slot) := by
  induction c with
  | nil => cases hmem
  | cons hd tl ih =>
      rcases List.mem_cons.mp hmem with heq | htl
      · subst heq
        simp [List.find?]
      · have hne : hd.1 ≠ k := by
          have := (List.pairwise_cons.mp hnd).1 (k, slot) htl
          simpa using this
        have hdec : decide (hd.1 = k) = false := decide_eq_false hne
        rw [List.find?, hdec]
        exact ih htl (List.pairwise_cons.mp hnd).2

/-- C9: when a key is in flight (a Pending marker with w waiters is in
the cache), a concurrent identical query only attaches as a waiter and
issues no upstream request; flush empties the cache and wakes exactly
those w waiters; and an identical query issued right after the flush
misses and issues a new upstream request instead of being coalesced
with the pre-flush one. -/
theorem flush_unblocks_pending (c : PCache) (k : QueryKey) (w : Nat) (now : Nat)
    (hmem : (k, CacheSlot.pending w) ∈ c)
    (hnd : c.Pairwise (fun a b => a.1 ≠ b.1)) :
    (startLookup c k now).1 = LookupOutcome.waitPending ∧
    (k, w) ∈ (flushCache c).2 ∧
    (startLookup (flushCache c).1 k now).1 = LookupOutcome.missIssueUpstream := by
  refine ⟨?_, ?_, ?_⟩
  · unfold startLookup
    rw [pcache_find_eq c k (CacheSlot.pending w) hmem hnd]
  · unfold flushCache
    simp only [List.mem_filterMap]
    exact ⟨(k, CacheSlot.pending w), hmem, rfl⟩
  · rfl

/-- Witness for C9: one key pending with two waiters. -/
theorem flush_unblocks_pending_witness :
    ((⟨1⟩, CacheSlot.pending 2) ∈
        ([(⟨1⟩, CacheSlot.pending 2)] : PCache)) ∧
    (startLookup [(⟨1⟩, CacheSlot.pending 2)] ⟨1⟩ 0).1 =
      LookupOutcome.waitPending ∧
    (⟨1⟩, 2) ∈ (flushCache [(⟨1⟩, CacheSlot.pending 2)]).2 ∧
    (startLookup (flushCache [(⟨1⟩, CacheSlot.pending 2)]).1 ⟨1⟩ 0).1 =
      LookupOutcome.missIssueUpstream :=
  ⟨by decide,
   (flush_unblocks_pending [(⟨1⟩, CacheSlot.pending 2)] ⟨1⟩ 2 0 (by decide)
      (by decide)).1,
   (flush_unblocks_pending [(⟨1⟩, CacheSlot.pending 2)] ⟨1⟩ 2 0 (by decide)
      (by decide)).2.1,
   (flush_unblocks_pending [(⟨1⟩, CacheSlot.pending 2)] ⟨1⟩ 2 0 (by decide)
      (by decide)).2.2⟩

end DnsResolver
